import Mathlib

/-
Verification of the `@tsxo/envy` environment-variable library.

The TypeScript source is shallowly embedded: the runtime value universe is
`JVal` (the pipeline prototype operates on `Envy<unknown>`, i.e. dynamically
typed values), JavaScript numbers are modelled as exact rationals extended
with `NaN` and the two infinities, objects used as error contexts are
association lists with JavaScript property-write semantics, and functions
that `throw` are modelled in `Except`.  The environment (`process.env`) is an
explicit `String → Option String` parameter.
-/

set_option autoImplicit false

deriving instance DecidableEq for Except

namespace EnvyLib

/-- Model of a JavaScript number: NaN, the two infinities, or a finite value
(modelled as an exact rational; none of the verified properties depend on
binary floating-point rounding). -/
inductive JSNum where
  | nan
  | posInf
  | negInf
  | finite (q : Rat)
deriving DecidableEq

/-- Negation of a JavaScript number (used for the sign of numeric literals). -/
def JSNum.neg : JSNum → JSNum
  | .nan => .nan
  | .posInf => .negInf
  | .negInf => .posInf
  | .finite q => .finite (-q)

/-- The universe of runtime values a pipeline or an error context can carry:
strings, numbers, booleans and string arrays. -/
inductive JVal where
  | str (s : String)
  | num (n : JSNum)
  | boolean (b : Bool)
  | strArr (xs : List String)
deriving DecidableEq

/-- An error-context object (`ErrCtx` in `types.ts`): a record of named
diagnostic fields, modelled as an association list in property-creation
order. -/
abbrev ErrCtx := List (String × JVal)

/-- JavaScript property write `c[k] = v`: overwrite in place when the field
exists, append otherwise. -/
def ctxSet : ErrCtx → String → JVal → ErrCtx
  | [], k, v => [(k, v)]
  | (k₀, v₀) :: rest, k, v =>
    if k₀ = k then (k₀, v) :: rest else (k₀, v₀) :: ctxSet rest k v

/-- JavaScript property read `c[k]`. -/
def ctxGet : ErrCtx → String → Option JVal
  | [], _ => none
  | (k₀, v₀) :: rest, k => if k₀ = k then some v₀ else ctxGet rest k

/-- The error taxonomy of `errors.ts` restricted to the structured data the
claims are about: the key of a `MissingError`, the key / value / context of an
`AssertError`, and the raw value / context of a `ConversionError`. -/
inductive EnvyError where
  | missing (key : String)
  | assertError (key : String) (value : JVal) (ctx : ErrCtx)
  | conversionError (value : String) (ctx : ErrCtx)
deriving DecidableEq

/-- The `AssertError` constructor's context updates (`errors.ts`):
`ctx.key = key; ctx.value = value;` written onto the supplied context. -/
def assertErrorCtx (key : String) (value : JVal) (ctx : ErrCtx) : ErrCtx :=
  ctxSet (ctxSet ctx "key" (.str key)) "value" value

/-- The `ConversionError` constructor (`errors.ts`): writes `ctx.value = value`
onto the supplied context. -/
def mkConversionError (value : String) (ctx : ErrCtx) : EnvyError :=
  .conversionError value (ctxSet ctx "value" (.str value))

/-- The whitespace set recognised by JavaScript string trimming and by the
`ToNumber` coercion: WhiteSpace plus LineTerminator code points. -/
def isJsWhitespace (c : Char) : Bool :=
  c.val = 0x9 || c.val = 0xA || c.val = 0xB || c.val = 0xC || c.val = 0xD ||
  c.val = 0x20 || c.val = 0xA0 || c.val = 0x1680 ||
  (0x2000 ≤ c.val && c.val ≤ 0x200A) ||
  c.val = 0x2028 || c.val = 0x2029 || c.val = 0x202F || c.val = 0x205F ||
  c.val = 0x3000 || c.val = 0xFEFF

/-- Model of `String.prototype.trim`: strip leading and trailing JavaScript
whitespace. -/
def jsTrim (s : String) : String :=
  ⟨((s.data.dropWhile isJsWhitespace).reverse.dropWhile isJsWhitespace).reverse⟩

/-- ASCII lowercasing of one character, as `String.prototype.toLowerCase`
acts on the code points the conversion tables use. -/
def charToLowerJs (c : Char) : Char :=
  if 'A' ≤ c ∧ c ≤ 'Z' then Char.ofNat (c.toNat + 32) else c

/-- Model of `String.prototype.toLowerCase` on the relevant (ASCII) range. -/
def jsToLower (s : String) : String :=
  ⟨s.data.map charToLowerJs⟩

/-- An assertion value (`assert/create.ts`): a predicate together with an
optional attached context object.  The source realises this as a function
object carrying a `context` property. -/
structure Assertion where
  predicate : JVal → Bool
  context : Option ErrCtx

/-- The assertion factory `create(predicate, context?)` of `assert/create.ts`. -/
def create (predicate : JVal → Bool) (context : Option ErrCtx) : Assertion :=
  ⟨predicate, context⟩

/-- The `length` property of a JavaScript value: defined for strings and
arrays, `undefined` for everything else. -/
def lengthOf : JVal → Option Nat
  | .str s => some s.length
  | .strArr xs => some xs.length
  | _ => none

/-- `minLen(n)` of `assert/array-like.ts`: `v.length >= n` with its context.
A `length` of `undefined` compares as false, as in JavaScript. -/
def minLen (n : Nat) : Assertion :=
  create
    (fun v => match lengthOf v with
      | some l => decide (l ≥ n)
      | none => false)
    (some [("description", .str ("Must have a minimum length of: " ++ toString n)),
           ("minimumLength", .num (.finite n))])

/-- `isPort()` of `assert/network.ts`: predicate `v > 0 && v <= 65535` (any
comparison involving `NaN` is false, and `Infinity <= 65535` is false), with
context `description`, `min`, `max`. -/
def isPort : Assertion :=
  create
    (fun v => match v with
      | .num (.finite q) => decide (0 < q ∧ q ≤ 65535)
      | _ => false)
    (some [("description", .str "Port must be between 1 and 65535"),
           ("min", .num (.finite 1)),
           ("max", .num (.finite 65535))])

/-- The pipeline state of `core.ts`: a key and the current value. -/
structure Envy where
  _key : String
  _value : JVal
deriving DecidableEq

/-- `createEnvy(key, value)` of `core.ts`. -/
def createEnvy (key : String) (value : JVal) : Envy :=
  ⟨key, value⟩

/-- The prototype method `transform(fn)`: replace the value with `fn(value)`. -/
def Envy.transform (e : Envy) (fn : JVal → JVal) : Envy :=
  { e with _value := fn e._value }

/-- The prototype method `convert(fn)`: `createEnvy(this._key, fn(this._value))`. -/
def Envy.convert (e : Envy) (fn : JVal → JVal) : Envy :=
  createEnvy e._key (fn e._value)

/-- The prototype method `build()`: return the current value. -/
def Envy.build (e : Envy) : JVal :=
  e._value

/-- The prototype method `assert(fn, msg?)` of `core.ts`.  On failure the
source aliases the assertion's own context object (`fn.context || {}`),
writes `userMessage` onto it when `msg` is truthy (so an empty message is
skipped), and the `AssertError` constructor then writes `key` and `value`
onto the same object.  The model therefore returns both the outcome and the
post-call state of the assertion, whose context — when it existed — is that
same mutated object. -/
def Envy.assert (e : Envy) (a : Assertion) (msg : Option String) :
    Except EnvyError Envy × Assertion :=
  if a.predicate e._value then (.ok e, a)
  else
    let ctx0 := a.context.getD []
    let ctx1 := match msg with
      | some m => if m = "" then ctx0 else ctxSet ctx0 "userMessage" (.str m)
      | none => ctx0
    let ctx2 := assertErrorCtx e._key e._value ctx1
    (.error (.assertError e._key e._value ctx2),
     { a with context := if a.context.isSome then some ctx2 else a.context })

/-- The transform `s => s.trim()` chained by `required` and `optional`; it is
only ever applied to string values. -/
def trimTransform : JVal → JVal
  | .str s => .str (jsTrim s)
  | v => v

/-- `toBool` of `str-conv.ts`: lowercase, trim, then compare against the fixed
truthy table `["true", "yes", "1", "on"]` and falsy table
`["false", "no", "0", "off"]`; anything else is a `ConversionError`. -/
def toBool (s : String) : Except EnvyError Bool :=
  if jsTrim (jsToLower s) ∈ (["true", "yes", "1", "on"] : List String) then .ok true
  else if jsTrim (jsToLower s) ∈ (["false", "no", "0", "off"] : List String) then .ok false
  else .error (mkConversionError s
    [("description", .str ("Value must be one of: " ++
        String.intercalate ", "
          ((["true", "yes", "1", "on"] : List String) ++ ["false", "no", "0", "off"]))),
     ("sourceType", .str "string"),
     ("targetType", .str "boolean")])

/-- Model of `String.prototype.split(",")`: cut at every comma, keeping empty
segments (so a trailing comma yields a trailing empty string and the empty
string yields one empty segment). -/
def splitComma : List Char → List Char → List String
  | [], acc => [⟨acc.reverse⟩]
  | c :: rest, acc =>
    if c = ',' then ⟨acc.reverse⟩ :: splitComma rest []
    else splitComma rest (c :: acc)

/-- `toArray` of `str-conv.ts` at its default separator: split on commas and
trim each segment.  `String.prototype.split` never throws for string input,
so the `catch` branch of the source is unreachable here. -/
def toArray (s : String) : List String :=
  (splitComma s.data []).map jsTrim

/-- Decimal digit test. -/
def isDigit (c : Char) : Bool :=
  '0' ≤ c && c ≤ '9'

/-- Value of a list of decimal digits. -/
def digitsVal (l : List Char) : Nat :=
  l.foldl (fun acc c => acc * 10 + (c.toNat - 48)) 0

/-- Digit test for the non-decimal integer literal bases. -/
def isRadixDigit (base : Nat) (c : Char) : Bool :=
  if base = 16 then
    isDigit c || ('a' ≤ c && c ≤ 'f') || ('A' ≤ c && c ≤ 'F')
  else if base = 8 then '0' ≤ c && c ≤ '7'
  else c = '0' || c = '1'

/-- Value of a digit in a non-decimal integer literal. -/
def radixDigitVal (c : Char) : Nat :=
  if 'a' ≤ c && c ≤ 'f' then c.toNat - 87
  else if 'A' ≤ c && c ≤ 'F' then c.toNat - 55
  else c.toNat - 48

/-- Value of a list of digits in the given base. -/
def radixVal (base : Nat) (l : List Char) : Nat :=
  l.foldl (fun acc c => acc * base + radixDigitVal c) 0

/-- The optional exponent part of a decimal literal: empty means exponent 0;
`e`/`E` followed by an optionally signed non-empty digit string gives that
exponent; anything else is not a numeric literal. -/
def parseExpPart : List Char → Option Int
  | [] => some 0
  | c :: rest =>
    if c = 'e' ∨ c = 'E' then
      match rest with
      | '+' :: ds =>
        if ds ≠ [] ∧ ds.all isDigit then some (digitsVal ds) else none
      | '-' :: ds =>
        if ds ≠ [] ∧ ds.all isDigit then some (-(digitsVal ds : Int)) else none
      | ds =>
        if ds ≠ [] ∧ ds.all isDigit then some (digitsVal ds) else none
    else none

/-- An unsigned decimal literal of the string numeric grammar: `Infinity`,
or integer / fractional digits with an optional exponent. -/
def parseUnsignedDec (l : List Char) : JSNum :=
  if l = "Infinity".data then .posInf
  else
    let ip := l.takeWhile isDigit
    let r1 := l.dropWhile isDigit
    match r1 with
    | [] => if ip = [] then .nan else .finite (digitsVal ip)
    | '.' :: r2 =>
      let fp := r2.takeWhile isDigit
      let r3 := r2.dropWhile isDigit
      if ip = [] ∧ fp = [] then .nan
      else
        match parseExpPart r3 with
        | none => .nan
        | some e =>
          .finite (((digitsVal ip : Rat) + (digitsVal fp : Rat) / 10 ^ fp.length) * 10 ^ e)
    | _ =>
      if ip = [] then .nan
      else
        match parseExpPart r1 with
        | none => .nan
        | some e => .finite ((digitsVal ip : Rat) * 10 ^ e)

/-- An optionally signed decimal literal. -/
def parseSignedDec (l : List Char) : JSNum :=
  match l with
  | '+' :: rest => parseUnsignedDec rest
  | '-' :: rest => (parseUnsignedDec rest).neg
  | _ => parseUnsignedDec l

/-- A non-decimal integer literal body: at least one digit of the base. -/
def parseRadix (base : Nat) (l : List Char) : JSNum :=
  if l ≠ [] ∧ l.all (isRadixDigit base) then .finite (radixVal base l) else .nan

/-- A string numeric literal: a `0x`/`0o`/`0b` integer literal (no sign
allowed) or a signed decimal literal. -/
def parseNumLit (l : List Char) : JSNum :=
  match l with
  | '0' :: c :: rest =>
    if c = 'x' ∨ c = 'X' then parseRadix 16 rest
    else if c = 'o' ∨ c = 'O' then parseRadix 8 rest
    else if c = 'b' ∨ c = 'B' then parseRadix 2 rest
    else parseSignedDec l
  | _ => parseSignedDec l

/-- Model of the JavaScript `ToNumber` coercion applied to a string (the
unary plus in `toNumber`): trim the surrounding whitespace; an empty remainder
is `0`; otherwise parse a string numeric literal, yielding `NaN` when the
remainder is not one. -/
def jsToNumber (s : String) : JSNum :=
  let t := jsTrim s
  if t = "" then .finite 0 else parseNumLit t.data

/-- `toNumber` of `str-conv.ts`: an empty string is a `ConversionError`;
otherwise coerce with `ToNumber` and fail with a `ConversionError` exactly
when the coercion yields `NaN`. -/
def toNumber (s : String) : Except EnvyError JSNum :=
  if s.length = 0 then
    .error (mkConversionError s
      [("description", .str "Cannot convert an empty string to a number"),
       ("sourceType", .str "string"),
       ("targetType", .str "number")])
  else
    match jsToNumber s with
    | .nan => .error (mkConversionError s
        [("description", .str ("Value \"" ++ s ++ "\" is not a number.")),
         ("sourceType", .str "string"),
         ("targetType", .str "number")])
    | n => .ok n

/-- The entry constructor `required(key)` of `core.ts`: a missing key is a
`MissingError`; a present value is trimmed and then asserted non-empty with
`minLen(1)`. -/
def required (env : String → Option String) (key : String) :
    Except EnvyError Envy :=
  match env key with
  | none => .error (.missing key)
  | some s =>
    (((createEnvy key (.str s)).transform trimTransform).assert (minLen 1) none).1

/-- The entry constructor `optional(key, defaultValue)` of `core.ts`:
`env[key] || defaultValue` (so both an absent key and a present empty string —
the only falsy string — select the default), then the same trim and
`minLen(1)` pipeline as `required`. -/
def optional (env : String → Option String) (key : String)
    (defaultValue : String) : Except EnvyError Envy :=
  let value := match env key with
    | some s => if s = "" then defaultValue else s
    | none => defaultValue
  (((createEnvy key (.str value)).transform trimTransform).assert (minLen 1) none).1

/-- The entry constructor `number(key, defaultValue?)` of `core.ts`. -/
def number (env : String → Option String) (key : String)
    (defaultValue : Option JSNum) : Except EnvyError Envy :=
  match env key with
  | none =>
    match defaultValue with
    | none => .error (.missing key)
    | some d => .ok (createEnvy key (.num d))
  | some s =>
    match toNumber s with
    | .error e => .error e
    | .ok n => .ok (createEnvy key (.num n))

/-- The entry constructor `bool(key, defaultValue?)` of `core.ts`. -/
def bool (env : String → Option String) (key : String)
    (defaultValue : Option Bool) : Except EnvyError Envy :=
  match env key with
  | none =>
    match defaultValue with
    | none => .error (.missing key)
    | some d => .ok (createEnvy key (.boolean d))
  | some s =>
    match toBool s with
    | .error e => .error e
    | .ok b => .ok (createEnvy key (.boolean b))

/-- The entry constructor `array(key, defaultValue?)` of `core.ts` (at the
converter's default separator). -/
def array (env : String → Option String) (key : String)
    (defaultValue : Option (List String)) : Except EnvyError Envy :=
  match env key with
  | none =>
    match defaultValue with
    | none => .error (.missing key)
    | some d => .ok (createEnvy key (.strArr d))
  | some s => .ok (createEnvy key (.strArr (toArray s)))

/-- `prefix.endsWith("_")`: the last character is an underscore. -/
def endsWithUnd (s : String) : Bool :=
  s.data.getLast? = some '_'

/-- The `normalizedPrefix` computation of `withPrefix`:
`prefix.endsWith("_") ? prefix : prefix + "_"`. -/
def normalizedPrefix (p : String) : String :=
  if endsWithUnd p then p else p ++ "_"

/-- The namespace object returned by `withPrefix`: its methods close over the
normalized prefix. -/
structure PrefixNS where
  boundPfx : String
deriving DecidableEq

/-- `withPrefix(prefix)` of `core.ts`. -/
def withPrefix (p : String) : PrefixNS :=
  ⟨normalizedPrefix p⟩

/-- The namespace method `required(key)`: delegates with the prefixed key. -/
def PrefixNS.required (ns : PrefixNS) (env : String → Option String)
    (key : String) : Except EnvyError Envy :=
  EnvyLib.required env (ns.boundPfx ++ key)

/-- The namespace method `optional(key, defaultValue)`. -/
def PrefixNS.optional (ns : PrefixNS) (env : String → Option String)
    (key : String) (defaultValue : String) : Except EnvyError Envy :=
  EnvyLib.optional env (ns.boundPfx ++ key) defaultValue

/-- The namespace method `number(key, defaultValue?)`. -/
def PrefixNS.number (ns : PrefixNS) (env : String → Option String)
    (key : String) (defaultValue : Option JSNum) : Except EnvyError Envy :=
  EnvyLib.number env (ns.boundPfx ++ key) defaultValue

/-- The namespace method `bool(key, defaultValue?)`. -/
def PrefixNS.bool (ns : PrefixNS) (env : String → Option String)
    (key : String) (defaultValue : Option Bool) : Except EnvyError Envy :=
  EnvyLib.bool env (ns.boundPfx ++ key) defaultValue

/-- The namespace method `array(key, defaultValue?)`. -/
def PrefixNS.array (ns : PrefixNS) (env : String → Option String)
    (key : String) (defaultValue : Option (List String)) : Except EnvyError Envy :=
  EnvyLib.array env (ns.boundPfx ++ key) defaultValue

/-- The nested namespace method `withPrefix(nestedPrefix)`:
`withPrefix(normalizedPrefix + nestedPrefix)`. -/
def PrefixNS.withPrefix (ns : PrefixNS) (nestedPfx : String) : PrefixNS :=
  EnvyLib.withPrefix (ns.boundPfx ++ nestedPfx)

/-- The context carried by an assert-failure outcome (for stating properties
of the thrown `AssertError`). -/
def errCtxOf : Except EnvyError Envy → ErrCtx
  | .error (.assertError _ _ c) => c
  | _ => []

/-- The caller-message step of `assert`: `if (msg) ctx.userMessage = msg`
applied to the context `ctx0` (an empty message is falsy and skipped). -/
def msgCtx (ctx0 : ErrCtx) : Option String → ErrCtx
  | some m => if m = "" then ctx0 else ctxSet ctx0 "userMessage" (.str m)
  | none => ctx0

/-- A reusable assertion with an attached context, as built by the factory. -/
def aDemoMut : Assertion :=
  create (fun _ => false) (some [("description", .str "d")])

/-- A failing assertion with an attached context, used to exhibit the merged
error context of a failing `assert` call. -/
def aDemoCtx : Assertion :=
  create (fun _ => false) (some [("description", .str "d")])

/-- A concrete environment binding `X` to a single space. -/
def envWspX : String → Option String :=
  fun k => if k = "X" then some " " else none

/-- A concrete environment binding `N` to the non-numeric string `abc`. -/
def envAbcN : String → Option String :=
  fun k => if k = "N" then some "abc" else none

/-- A concrete environment binding only `APP_K`. -/
def envAppK : String → Option String :=
  fun k => if k = "APP_K" then some "v" else none

/-- A concrete environment binding only `APP_PORT`. -/
def envAppPort : String → Option String :=
  fun k => if k = "APP_PORT" then some "3000" else none

end EnvyLib

namespace EnvyLib

/-! ### Helper lemmas about the context and string models -/

theorem ctxGet_ctxSet_self (c : ErrCtx) (k : String) (v : JVal) :
    ctxGet (ctxSet c k v) k = some v := by
  induction c with
  | nil => simp [ctxSet, ctxGet]
  | cons hd tl ih =>
    obtain ⟨k₀, v₀⟩ := hd
    by_cases h : k₀ = k
    · simp [ctxSet, ctxGet, h]
    · simp [ctxSet, ctxGet, h, ih]

theorem ctxGet_ctxSet_ne (c : ErrCtx) (k f : String) (v : JVal) (h : f ≠ k) :
    ctxGet (ctxSet c k v) f = ctxGet c f := by
  induction c with
  | nil =>
    simp only [ctxSet, ctxGet]
    rw [if_neg (fun hc => h hc.symm)]
  | cons hd tl ih =>
    obtain ⟨k₀, v₀⟩ := hd
    by_cases hk : k₀ = k
    · subst hk
      have hkf : ¬ k₀ = f := fun hc => h hc.symm
      simp only [ctxSet, if_pos rfl, ctxGet, if_neg hkf]
    · simp only [ctxSet, if_neg hk, ctxGet, ih]

theorem data_ne_nil_of_ne_empty (s : String) (h : s ≠ "") : s.data ≠ [] := by
  intro hd
  apply h
  cases s
  simp_all

theorem length_pos_of_ne_empty (s : String) (h : s ≠ "") : 1 ≤ s.length := by
  have hd := data_ne_nil_of_ne_empty s h
  cases s with
  | mk data =>
    cases data with
    | nil => simp at hd
    | cons c cs => simp [String.length]

theorem jsTrim_eq_empty_of_all_ws (s : String)
    (hws : ∀ c ∈ s.data, isJsWhitespace c = true) : jsTrim s = "" := by
  have h1 : s.data.dropWhile isJsWhitespace = [] :=
    List.dropWhile_eq_nil_iff.mpr (by simpa using hws)
  unfold jsTrim
  rw [h1]
  rfl

theorem str_append_assoc (a b c : String) : a ++ b ++ c = a ++ (b ++ c) := by
  cases a; cases b; cases c
  apply String.ext
  simp [String.data_append, List.append_assoc]

theorem endsWithUnd_append (a b : String) (hb : b ≠ "") :
    endsWithUnd (a ++ b) = endsWithUnd b := by
  unfold endsWithUnd
  rw [String.data_append,
    List.getLast?_append_of_ne_nil a.data (data_ne_nil_of_ne_empty b hb)]

theorem normalizedPrefix_append (p1 p2 : String) (h : p2 ≠ "") :
    normalizedPrefix (normalizedPrefix p1 ++ p2)
      = normalizedPrefix p1 ++ normalizedPrefix p2 := by
  generalize normalizedPrefix p1 = n1
  unfold normalizedPrefix
  rw [endsWithUnd_append n1 p2 h]
  by_cases h2 : endsWithUnd p2 = true
  · rw [if_pos h2, if_pos h2]
  · rw [if_neg h2, if_neg h2, str_append_assoc]

/-! ### C1 -/

/-- C1: `required(k)` distinguishes a missing key from a present-but-blank
value: an absent key is a `MissingError`, while a present value that trims to
the empty string (so the empty string itself, and every whitespace-only
string) fails the `minLen(1)` assertion with an `AssertError` — never a
`MissingError`. -/
theorem required_missing_vs_blank (env : String → Option String) (k : String) :
    (env k = none → required env k = .error (.missing k))
    ∧ (∀ s, env k = some s → jsTrim s = "" →
        required env k = .error (.assertError k (.str "")
          [("description", .str "Must have a minimum length of: 1"),
           ("minimumLength", .num (.finite 1)),
           ("key", .str k), ("value", .str "")])) := by
  constructor
  · intro h
    simp [required, h]
  · intro s hs ht
    have h1 : required env k
        = (((createEnvy k (.str s)).transform trimTransform).assert (minLen 1) none).1 := by
      simp [required, hs]
    rw [h1]
    simp only [createEnvy, Envy.transform, trimTransform, ht]
    rfl

/-- Witness for C1 at a concrete environment: `X` unset is Missing; `X` bound
to a whitespace-only string is the `minLen(1)` AssertError. -/
theorem required_missing_vs_blank_witness :
    required (fun _ => none) "X" = .error (.missing "X")
    ∧ required (fun k => if k = "X" then some " \t " else none) "X"
        = .error (.assertError "X" (.str "")
            [("description", .str "Must have a minimum length of: 1"),
             ("minimumLength", .num (.finite 1)),
             ("key", .str "X"), ("value", .str "")]) :=
  ⟨(required_missing_vs_blank (fun _ => none) "X").1 rfl,
   (required_missing_vs_blank (fun k => if k = "X" then some " \t " else none) "X").2
     " \t " (by decide) (by decide)⟩

/-! ### C6 -/

/-- C6: chaining `convert(f)` then `convert(g)` is observationally the single
call `convert(v => g(f(v)))`: the pipelines are equal, the key is unchanged,
and `build` returns `g(f(v))` either way. -/
theorem convert_then_convert (e : Envy) (f g : JVal → JVal) :
    (e.convert f).convert g = e.convert (fun v => g (f v))
    ∧ ((e.convert f).convert g)._key = e._key
    ∧ ((e.convert f).convert g).build = g (f e._value)
    ∧ (e.convert (fun v => g (f v))).build = g (f e._value) :=
  ⟨rfl, rfl, rfl, rfl⟩

/-! ### C8 -/

/-- C8: the implemented `isPort()` predicate is `v > 0 && v <= 65535` and
performs no integrality check, contradicting both the claim and the
function's own documentation ("within the range of 1 to 65535"): it accepts
`0.5` (which is below 1) and `80.5` (which is not integer-valued).  The
context fields are as documented. -/
theorem isPort_accepts_fractional :
    isPort.predicate (.num (.finite (mkRat 1 2))) = true
    ∧ mkRat 1 2 < 1
    ∧ isPort.predicate (.num (.finite (mkRat 161 2))) = true
    ∧ (mkRat 161 2).den ≠ 1
    ∧ isPort.context
        = some [("description", .str "Port must be between 1 and 65535"),
                ("min", .num (.finite 1)), ("max", .num (.finite 65535))] := by
  decide

/-! ### C9 -/

/-- C9: assertion values are not immutable: a failing `assert(a, msg)` call
writes `userMessage`, `key` and `value` through the alias `fn.context`, so the
assertion's own context object differs after the call. -/
theorem assert_mutates_assertion_context :
    ((createEnvy "K" (.str "v")).assert aDemoMut (some "m")).2.context
      = some [("description", .str "d"), ("userMessage", .str "m"),
              ("key", .str "K"), ("value", .str "v")]
    ∧ ((createEnvy "K" (.str "v")).assert aDemoMut (some "m")).2.context
        ≠ aDemoMut.context := by
  decide

/-! ### C10 -/

/-- C10: `toNumber` on a non-empty whitespace-only string does not throw: the
empty-string guard sees a positive length, and the numeric coercion of a
whitespace-only string yields `0`. -/
theorem toNumber_whitespace_zero (s : String) (hne : s ≠ "")
    (hws : ∀ c ∈ s.data, isJsWhitespace c = true) :
    toNumber s = .ok (.finite 0) := by
  have hlen : ¬ s.length = 0 := by
    have := length_pos_of_ne_empty s hne
    omega
  unfold toNumber
  rw [if_neg hlen]
  simp [jsToNumber, jsTrim_eq_empty_of_all_ws s hws]

/-- Witness for C10: three spaces coerce to `0`. -/
theorem toNumber_whitespace_zero_witness :
    toNumber "   " = .ok (.finite 0) :=
  toNumber_whitespace_zero "   " (by decide) (by decide)

end EnvyLib

namespace EnvyLib

/-! ### Further helper lemmas -/

@[simp] theorem createEnvy_key (k : String) (v : JVal) : (createEnvy k v)._key = k := rfl

@[simp] theorem createEnvy_value (k : String) (v : JVal) : (createEnvy k v)._value = v := rfl

theorem assert_fail_eq (a : Assertion) (k : String) (v : JVal) (msg : Option String)
    (hfail : a.predicate v = false) :
    ((createEnvy k v).assert a msg).1
      = .error (.assertError k v
          (assertErrorCtx k v (msgCtx (a.context.getD []) msg))) := by
  cases msg <;> simp [Envy.assert, hfail, msgCtx]

theorem assert_result_not_missing (e : Envy) (a : Assertion) (msg : Option String)
    (k2 : String) : (e.assert a msg).1 ≠ .error (.missing k2) := by
  unfold Envy.assert
  split <;> simp

/-! ### C2 -/

/-- C2 counterexample: with the caller message given but empty, the thrown
context carries no `userMessage` field at all — `if (msg)` treats the empty
string as falsy — although the claim requires `userMessage` to equal the
given message. -/
theorem assert_empty_message_counterexample :
    ((createEnvy "K" (.str "v")).assert aDemoCtx (some "")).1
      = .error (.assertError "K" (.str "v")
          [("description", .str "d"), ("key", .str "K"), ("value", .str "v")])
    ∧ ctxGet (errCtxOf (((createEnvy "K" (.str "v")).assert aDemoCtx (some "")).1))
        "userMessage" = none := by
  decide

/-- C2 (amended): on a failing `assert(a, msg)` with key `k` and value `v`,
the thrown `AssertError` carries a context built from a's own context (empty
if a has none), extended with `userMessage = msg` when `msg` is given and
non-empty (an empty message is falsy and is skipped), and with `key = k` and
`value = v` written last so that they override any same-named fields of a's
context. -/
theorem assert_failure_context (a : Assertion) (k : String) (v : JVal)
    (msg : Option String) (hfail : a.predicate v = false) :
    ((createEnvy k v).assert a msg).1
        = .error (.assertError k v (errCtxOf ((createEnvy k v).assert a msg).1))
    ∧ ctxGet (errCtxOf ((createEnvy k v).assert a msg).1) "key" = some (.str k)
    ∧ ctxGet (errCtxOf ((createEnvy k v).assert a msg).1) "value" = some v
    ∧ (∀ m, msg = some m → m ≠ "" →
        ctxGet (errCtxOf ((createEnvy k v).assert a msg).1) "userMessage"
          = some (.str m))
    ∧ (msg = none ∨ msg = some "" →
        ctxGet (errCtxOf ((createEnvy k v).assert a msg).1) "userMessage"
          = ctxGet (a.context.getD []) "userMessage")
    ∧ (∀ f, f ≠ "key" → f ≠ "value" → f ≠ "userMessage" →
        ctxGet (errCtxOf ((createEnvy k v).assert a msg).1) f
          = ctxGet (a.context.getD []) f) := by
  have hres := assert_fail_eq a k v msg hfail
  have hctx : errCtxOf ((createEnvy k v).assert a msg).1
      = assertErrorCtx k v (msgCtx (a.context.getD []) msg) := by
    rw [hres]
    rfl
  refine ⟨by rw [hctx, hres], ?_, ?_, ?_, ?_, ?_⟩
  · rw [hctx]
    unfold assertErrorCtx
    rw [ctxGet_ctxSet_ne _ _ _ _ (by decide)]
    exact ctxGet_ctxSet_self _ _ _
  · rw [hctx]
    unfold assertErrorCtx
    exact ctxGet_ctxSet_self _ _ _
  · intro m hm hne
    rw [hctx, hm]
    unfold assertErrorCtx
    rw [ctxGet_ctxSet_ne _ _ _ _ (by decide), ctxGet_ctxSet_ne _ _ _ _ (by decide)]
    simp only [msgCtx, if_neg hne]
    exact ctxGet_ctxSet_self _ _ _
  · intro hmm
    rw [hctx]
    unfold assertErrorCtx
    rw [ctxGet_ctxSet_ne _ _ _ _ (by decide), ctxGet_ctxSet_ne _ _ _ _ (by decide)]
    rcases hmm with h | h <;> rw [h] <;> simp [msgCtx]
  · intro f hf1 hf2 hf3
    rw [hctx]
    unfold assertErrorCtx
    rw [ctxGet_ctxSet_ne _ _ _ _ hf2, ctxGet_ctxSet_ne _ _ _ _ hf1]
    cases msg with
    | none => simp [msgCtx]
    | some m =>
      by_cases hm : m = ""
      · simp [msgCtx, hm]
      · simp only [msgCtx, if_neg hm]
        exact ctxGet_ctxSet_ne _ _ _ _ hf3

/-- Witness for C2 at a concrete failing assertion with a non-empty message:
the merged context exposes the overriding `key` and `value`, the caller's
`userMessage`, and the assertion's own `description`. -/
theorem assert_failure_context_witness :
    ctxGet (errCtxOf (((createEnvy "K" (.str "v")).assert aDemoCtx (some "m")).1)) "key"
        = some (.str "K")
    ∧ ctxGet (errCtxOf (((createEnvy "K" (.str "v")).assert aDemoCtx (some "m")).1)) "value"
        = some (.str "v")
    ∧ ctxGet (errCtxOf (((createEnvy "K" (.str "v")).assert aDemoCtx (some "m")).1)) "userMessage"
        = some (.str "m")
    ∧ ctxGet (errCtxOf (((createEnvy "K" (.str "v")).assert aDemoCtx (some "m")).1)) "description"
        = some (.str "d") := by
  have h := assert_failure_context aDemoCtx "K" (.str "v") (some "m") rfl
  exact ⟨h.2.1, h.2.2.1, h.2.2.2.1 "m" rfl (by decide),
    (h.2.2.2.2.2 "description" (by decide) (by decide) (by decide)).trans (by decide)⟩

end EnvyLib

namespace EnvyLib

/-! ### C3 -/

/-- C3 counterexample: `optional("X", "def")` with `X` bound to a single
space — a non-empty string — does not yield the trimmed value: the trim
produces the empty string and the `minLen(1)` assertion throws. -/
theorem optional_whitespace_counterexample :
    (" " : String) ≠ ""
    ∧ jsTrim " " = ""
    ∧ optional envWspX "X" "def"
        = .error (.assertError "X" (.str "")
            [("description", .str "Must have a minimum length of: 1"),
             ("minimumLength", .num (.finite 1)),
             ("key", .str "X"), ("value", .str "")]) := by
  decide

/-- C3 (amended): `optional(k, d)` with `k` bound to the empty string (or
absent) runs the trim-and-assert pipeline on `d` — the falsy value selects
the default and `MissingError` is never thrown; with `k` bound to a
non-empty string `s` the default is ignored: the call yields the trimmed `s`
when that is non-empty, and throws the `minLen(1)` `AssertError` when `s`
is whitespace-only. -/
theorem optional_default_and_passthrough (env : String → Option String)
    (k d : String) :
    (env k = some "" →
      optional env k d
        = (((createEnvy k (.str d)).transform trimTransform).assert (minLen 1) none).1)
    ∧ (env k = none →
      optional env k d
        = (((createEnvy k (.str d)).transform trimTransform).assert (minLen 1) none).1)
    ∧ (∀ s, env k = some s → s ≠ "" → jsTrim s ≠ "" →
        optional env k d = .ok (createEnvy k (.str (jsTrim s))))
    ∧ (∀ s, env k = some s → s ≠ "" → jsTrim s = "" →
        optional env k d = .error (.assertError k (.str "")
          [("description", .str "Must have a minimum length of: 1"),
           ("minimumLength", .num (.finite 1)),
           ("key", .str k), ("value", .str "")]))
    ∧ (∀ k2, optional env k d ≠ .error (.missing k2)) := by
  refine ⟨?_, ?_, ?_, ?_, ?_⟩
  · intro h
    simp [optional, h]
  · intro h
    simp [optional, h]
  · intro s hs hne ht
    have hp : (minLen 1).predicate (.str (jsTrim s)) = true := by
      simp only [minLen, create, lengthOf]
      simpa using length_pos_of_ne_empty _ ht
    have h1 : optional env k d
        = (((createEnvy k (.str s)).transform trimTransform).assert (minLen 1) none).1 := by
      simp [optional, hs, hne]
    rw [h1]
    simp [Envy.transform, createEnvy, trimTransform, Envy.assert, hp]
  · intro s hs hne ht
    have h1 : optional env k d
        = (((createEnvy k (.str s)).transform trimTransform).assert (minLen 1) none).1 := by
      simp [optional, hs, hne]
    rw [h1]
    simp only [createEnvy, Envy.transform, trimTransform, ht]
    rfl
  · intro k2
    exact assert_result_not_missing _ (minLen 1) none k2

/-- Witness for C3 at concrete environments: the empty value selects the
default `def`, and a bound value `custom` passes through. -/
theorem optional_default_and_passthrough_witness :
    optional (fun k => if k = "X" then some "" else none) "X" "def"
      = .ok (createEnvy "X" (.str "def"))
    ∧ optional (fun k => if k = "X" then some "custom" else none) "X" "def"
      = .ok (createEnvy "X" (.str "custom")) :=
  ⟨((optional_default_and_passthrough
      (fun k => if k = "X" then some "" else none) "X" "def").1 (by decide)).trans
      (by decide),
   (optional_default_and_passthrough
      (fun k => if k = "X" then some "custom" else none) "X" "def").2.2.1
      "custom" (by decide) (by decide) (by decide)⟩

/-! ### C4 -/

/-- C4: the typed entry constructors never fall back to a supplied default
when the key is present: with `k` bound, the result is independent of the
default, and a converter rejection propagates as that `ConversionError`
even when a default exists; the default is used only when `k` is entirely
absent. -/
theorem typed_entries_no_default_fallback (env : String → Option String)
    (k : String) :
    (∀ s, env k = some s →
        (∀ d, number env k (some d) = number env k none)
      ∧ (∀ d, bool env k (some d) = bool env k none)
      ∧ (∀ d, array env k (some d) = array env k none)
      ∧ (∀ e, toNumber s = .error e → ∀ d, number env k d = .error e)
      ∧ (∀ e, toBool s = .error e → ∀ d, bool env k d = .error e)
      ∧ (∀ e, toNumber s = .error e → ∃ w c, e = .conversionError w c)
      ∧ (∀ e, toBool s = .error e → ∃ w c, e = .conversionError w c))
    ∧ (env k = none →
        (∀ d, number env k (some d) = .ok (createEnvy k (.num d)))
      ∧ (∀ d, bool env k (some d) = .ok (createEnvy k (.boolean d)))
      ∧ (∀ d, array env k (some d) = .ok (createEnvy k (.strArr d)))) := by
  constructor
  · intro s hs
    refine ⟨?_, ?_, ?_, ?_, ?_, ?_, ?_⟩
    · intro d; simp [number, hs]
    · intro d; simp [bool, hs]
    · intro d; simp [array, hs]
    · intro e he d; simp [number, hs, he]
    · intro e he d; simp [bool, hs, he]
    · intro e he
      unfold toNumber at he
      split at he
      · rw [← Except.error.inj he]
        exact ⟨_, _, rfl⟩
      · split at he
        · rw [← Except.error.inj he]
          exact ⟨_, _, rfl⟩
        · simp at he
    · intro e he
      unfold toBool at he
      split at he
      · simp at he
      · split at he
        · simp at he
        · rw [← Except.error.inj he]
          exact ⟨_, _, rfl⟩
  · intro h
    exact ⟨fun d => by simp [number, h], fun d => by simp [bool, h],
      fun d => by simp [array, h]⟩

/-- Witness for C4: with `N` bound to the non-numeric `abc`, the default is
ignored and the call fails with the converter's `ConversionError`. -/
theorem typed_entries_no_default_fallback_witness :
    number envAbcN "N" (some (.finite 7)) = number envAbcN "N" none
    ∧ number envAbcN "N" (some (.finite 7))
        = .error (mkConversionError "abc"
            [("description", .str "Value \"abc\" is not a number."),
             ("sourceType", .str "string"), ("targetType", .str "number")]) := by
  have h := (typed_entries_no_default_fallback envAbcN "N").1 "abc" (by decide)
  exact ⟨h.1 (.finite 7), h.2.2.2.1 _ (by decide) (some (.finite 7))⟩

/-! ### C5 -/

/-- C5 counterexample: nesting with the empty prefix breaks the claimed
composition law: `withPrefix("APP").withPrefix("")` resolves key `K` as
`APP_K` (the value bound there is found), while the claimed composed prefix
`normalize("APP") + normalize("")` would resolve `APP__K`, which is missing. -/
theorem withPrefix_nested_empty_counterexample :
    PrefixNS.required (PrefixNS.withPrefix (withPrefix "APP") "") envAppK "K"
      = .ok (createEnvy "APP_K" (.str "v"))
    ∧ normalizedPrefix "APP" ++ normalizedPrefix "" ++ "K" = "APP__K"
    ∧ required envAppK "APP__K" = .error (.missing "APP__K") := by
  decide

/-- C5 (amended): `withPrefix(p)` resolves every entry constructor's key as
`normalizedPrefix(p) + key`, where the normalization appends one trailing
underscore exactly when `p` lacks one (so `APP` and `APP_` give the same
namespace); nesting binds `normalize(normalize(p1) + p2)`, which equals
`normalize(p1) + normalize(p2)` whenever `p2` is non-empty (the empty nested
prefix is the sole exception). -/
theorem withPrefix_resolution (p k : String) :
    (∀ env, PrefixNS.required (withPrefix p) env k
      = required env (normalizedPrefix p ++ k))
    ∧ (∀ env d, PrefixNS.optional (withPrefix p) env k d
      = optional env (normalizedPrefix p ++ k) d)
    ∧ (∀ env d, PrefixNS.number (withPrefix p) env k d
      = number env (normalizedPrefix p ++ k) d)
    ∧ (∀ env d, PrefixNS.bool (withPrefix p) env k d
      = bool env (normalizedPrefix p ++ k) d)
    ∧ (∀ env d, PrefixNS.array (withPrefix p) env k d
      = array env (normalizedPrefix p ++ k) d)
    ∧ withPrefix "APP" = withPrefix "APP_"
    ∧ (∀ p2, p2 ≠ "" →
        (PrefixNS.withPrefix (withPrefix p) p2).boundPfx
          = normalizedPrefix p ++ normalizedPrefix p2) := by
  refine ⟨fun env => rfl, fun env d => rfl, fun env d => rfl, fun env d => rfl,
    fun env d => rfl, by decide, fun p2 h2 => ?_⟩
  show normalizedPrefix (normalizedPrefix p ++ p2) = _
  exact normalizedPrefix_append p p2 h2

/-- Witness for C5: `withPrefix("APP").required("PORT")` reads `APP_PORT`,
and nesting `DB` under `APP` binds the prefix `APP_DB_`. -/
theorem withPrefix_resolution_witness :
    PrefixNS.required (withPrefix "APP") envAppPort "PORT"
      = required envAppPort "APP_PORT"
    ∧ PrefixNS.required (withPrefix "APP") envAppPort "PORT"
      = .ok (createEnvy "APP_PORT" (.str "3000"))
    ∧ (PrefixNS.withPrefix (withPrefix "APP") "DB").boundPfx = "APP_DB_" := by
  have h := withPrefix_resolution "APP" "PORT"
  refine ⟨?_, ?_, ?_⟩
  · rw [h.1 envAppPort]
    decide
  · rw [h.1 envAppPort]
    decide
  · rw [h.2.2.2.2.2.2 "DB" (by decide)]
    decide

/-! ### C7 -/

/-- C7: `toBool` lowercases and trims its input and returns `true` exactly
when the normalized string is in the truthy table, `false` exactly when it is
in the falsy table, and throws a `ConversionError` for every other normalized
string; in particular on a padded upper-case TRUE, on `invalid`, and on the
empty string. -/
theorem toBool_table (s : String) :
    (toBool s = .ok true ↔
      jsTrim (jsToLower s) ∈ (["true", "yes", "1", "on"] : List String))
    ∧ (toBool s = .ok false ↔
      jsTrim (jsToLower s) ∈ (["false", "no", "0", "off"] : List String))
    ∧ (jsTrim (jsToLower s) ∉ (["true", "yes", "1", "on"] : List String) →
       jsTrim (jsToLower s) ∉ (["false", "no", "0", "off"] : List String) →
        ∃ w c, toBool s = .error (.conversionError w c))
    ∧ toBool "  TRUE " = .ok true
    ∧ (toBool "invalid").isOk = false
    ∧ (toBool "").isOk = false := by
  refine ⟨?_, ?_, ?_, by decide, by decide, by decide⟩
  · by_cases h1 : jsTrim (jsToLower s) ∈ (["true", "yes", "1", "on"] : List String)
    · unfold toBool
      rw [if_pos h1]
      simp [h1]
    · by_cases h2 : jsTrim (jsToLower s) ∈ (["false", "no", "0", "off"] : List String)
      · unfold toBool
        rw [if_neg h1, if_pos h2]
        simp [h1]
      · unfold toBool
        rw [if_neg h1, if_neg h2]
        simp [h1]
  · by_cases h1 : jsTrim (jsToLower s) ∈ (["true", "yes", "1", "on"] : List String)
    · unfold toBool
      rw [if_pos h1]
      have hnf : jsTrim (jsToLower s) ∉ (["false", "no", "0", "off"] : List String) := by
        intro hc
        simp only [List.mem_cons, List.not_mem_nil, or_false] at h1 hc
        rcases h1 with h | h | h | h <;> rw [h] at hc <;> exact absurd hc (by decide)
      simp [hnf]
    · by_cases h2 : jsTrim (jsToLower s) ∈ (["false", "no", "0", "off"] : List String)
      · unfold toBool
        rw [if_neg h1, if_pos h2]
        simp [h2]
      · unfold toBool
        rw [if_neg h1, if_neg h2]
        simp [h2]
  · intro h1 h2
    unfold toBool
    rw [if_neg h1, if_neg h2]
    exact ⟨_, _, rfl⟩

/-- Witness for C7: a padded upper-case TRUE converts, and an unrecognised
string fails with a `ConversionError`. -/
theorem toBool_table_witness :
    toBool "  TRUE " = .ok true
    ∧ (∃ w c, toBool "xyz" = .error (.conversionError w c)) :=
  ⟨(toBool_table "  TRUE ").2.2.2.1,
   (toBool_table "xyz").2.2.1 (by decide) (by decide)⟩

end EnvyLib
